import Mathlib

/-!
# Verification of the build-configuration resolver (`src/webpack.config.js`)

A shallow embedding of the webpack configuration file of the
`preact-hybrid-boilerplate` repository.  The file is a pure, single-pass
resolution from environment state (the `NODE_ENV` and `PORT` environment
variables, and the outcome of spawning `git rev-parse HEAD`) to one or two
build descriptors plus a cleanup callback.  We model:

* the environment as a structure `Env`;
* `commitHash` (line 40-41): the trimmed stdout of the git subprocess on
  success, `null` (here `none`) when the subprocess throws;
* `isDev` (line 43): `process.env.NODE_ENV === 'development'`;
* `baseConfig` (lines 46-204): the browser build descriptor, keeping the
  fields the specification speaks about (mode, entry, output naming,
  plugin list, `optimization.minimize`, dev-server proxy target);
* the production mutation and export logic (lines 206-250): pushing the
  `cleanBuild` plugin, deriving `nodeCfg`, and exporting either the single
  browser config or the `[baseConfig, nodeCfg]` pair (`moduleExports`);
* the `cleanBuild` hook body (lines 210-221): guarded by `existsSync`,
  it enumerates the output directory and unlinks every entry whose name
  is not `manifest.json`.  A directory is an `Option (List String)`
  (`none` when the directory does not exist); the action returns the
  remaining listing together with the list of deleted entries, inside
  `Except` so that a thrown filesystem error is representable.

File paths are lists of path segments relative to the project root
(`__dirname`), mirroring `resolve(__dirname, 'http', 'dist')` etc.
-/

namespace PreactHybrid

/-- Environment inputs of the resolver: the `NODE_ENV` and `PORT`
environment variables (absent = `none`) and the outcome of the external
`git rev-parse HEAD` subprocess (`Except.error` when the command fails or
is unavailable, `Except.ok stdout` on success). -/
structure Env where
  nodeEnv : Option String
  port : Option String
  gitResult : Except Unit String
deriving Repr

/-- Line 40-41: `let commitHash = null; try { commitHash = execSync('git
rev-parse HEAD').toString().trim() } catch (e) {}`. -/
def commitHash : Except Unit String → Option String
  | Except.error _ => none
  | Except.ok out => some out.trim

/-- Line 43: `const isDev = process.env.NODE_ENV === 'development'`. -/
def isDev (e : Env) : Bool := e.nodeEnv == some "development"

/-- JavaScript `a || b` on an optional environment-variable string: an
absent variable and the empty string are both falsy, so both fall through
to the default (line 202: `process.env.PORT || 6969`). -/
def jsOr (v : Option String) (dflt : String) : String :=
  match v with
  | none => dflt
  | some s => if s == "" then dflt else s

/-- The plugins the configuration instantiates, carrying the options the
specification's claims depend on. -/
inductive Plugin where
  | manifestPlugin (fileName : List String)
  | miniCSSExtract (filename chunkFilename : String)
  | definePlugin (gitRevision : Option String) (nodeEnvValue : Option String)
  | friendlyErrors
  | preactRefresh
  | cleanBuild
  | limitChunkCount (maxChunks : Nat)
deriving DecidableEq, Repr

/-- The `output` block of a configuration (lines 49-54 and 226-232). -/
structure Output where
  filename : String
  chunkFilename : String
  path : List String
  publicPath : String
  libraryTarget : Option String := none
deriving DecidableEq, Repr

/-- The `optimization` block, restricted to the `minimize` flag the claims
are about (line 169 and 237-240). -/
structure Optimization where
  minimize : Bool
deriving DecidableEq, Repr

/-- The `devServer` block, restricted to the proxy target (line 202). -/
structure DevServer where
  proxy : String
deriving DecidableEq, Repr

/-- A build descriptor: one webpack configuration object.  `target`
defaults to webpack's implicit `"web"`; `externals` records whether
runtime dependencies are declared external (line 242). -/
structure Config where
  mode : String
  entry : List String
  output : Output
  plugins : List Plugin
  optimization : Optimization
  devServer : DevServer
  target : String := "web"
  externals : Bool := false
deriving DecidableEq, Repr

/-- Lines 46-204: the `baseConfig` object. -/
def baseConfig (e : Env) : Config :=
  { mode := if isDev e then "development" else "production"
    entry := ["src", "main.jsx"]
    output :=
      { filename := if isDev e then "[name].js" else "[contenthash].js"
        chunkFilename := if isDev e then "[name].chk.js" else "[contenthash].js"
        path := ["dist"]
        publicPath := "/dist/" }
    plugins :=
      [ Plugin.manifestPlugin ["http", "dist", "manifest.json"]
      , Plugin.miniCSSExtract (if isDev e then "[name].css" else "[contenthash].css")
          (if isDev e then "[name].css" else "[contenthash].css")
      , Plugin.definePlugin (commitHash e.gitResult) e.nodeEnv ]
    optimization := { minimize := !isDev e }
    devServer := { proxy := "http://localhost:" ++ jsOr e.port "6969" } }

/-- Lines 223-247: the node-target configuration `nodeCfg`, spread from
`baseConfig` *after* the cleanup plugin was pushed onto its plugin array
(line 210), with `plugins: [...baseConfig.plugins.slice(1),
new LimitChunkCountPlugin({ maxChunks: 1 })]`. -/
def nodeCfg (e : Env) : Config :=
  let bc : Config :=
    { baseConfig e with plugins := (baseConfig e).plugins ++ [Plugin.cleanBuild] }
  { bc with
    entry := ["src", "components", "App.jsx"]
    output :=
      { filename := "App.js"
        chunkFilename := "[name].chk.js"
        libraryTarget := some "commonjs2"
        path := ["http", "dist"]
        publicPath := "/dist/" }
    plugins := bc.plugins.drop 1 ++ [Plugin.limitChunkCount 1]
    optimization := { bc.optimization with minimize := false }
    target := "node"
    externals := true }

/-- Lines 206-250: `module.exports`.  In Development the single browser
configuration (with the two dev-only plugins pushed); in Production the
pair of the mutated browser configuration (cleanup plugin pushed) and
`nodeCfg`. -/
def moduleExports (e : Env) : List Config :=
  if isDev e then
    [{ baseConfig e with
        plugins := (baseConfig e).plugins ++ [Plugin.friendlyErrors, Plugin.preactRefresh] }]
  else
    [ { baseConfig e with plugins := (baseConfig e).plugins ++ [Plugin.cleanBuild] }
    , nodeCfg e ]

/-- Line 213: `existsSync(compiler.options.output.path)`.  A directory is
`none` when it does not exist on disk. -/
def existsSync (dir : Option (List String)) : Bool := dir.isSome

/-- Line 214: `readdirSync` — throws when the directory does not exist,
returns the listing otherwise. -/
def readdirSync : Option (List String) → Except Unit (List String)
  | none => Except.error ()
  | some entries => Except.ok entries

/-- Lines 212-220: the body of the `cleanBuild` hook.  If the output
directory exists, enumerate it and unlink every entry whose name is not
`manifest.json`; otherwise do nothing.  Returns the directory state after
the pass together with the list of deleted entries. -/
def cleanBuild (dir : Option (List String)) :
    Except Unit (Option (List String) × List String) :=
  if existsSync dir then
    (readdirSync dir).map (fun entries =>
      (some (entries.filter (fun f => f == "manifest.json")),
       entries.filter (fun f => f != "manifest.json")))
  else
    Except.ok (dir, [])

/-- A configuration is the server build descriptor when its target is
`node` (line 241). -/
def isServerCfg (c : Config) : Bool := c.target == "node"

/-- The `filename` options of the `MiniCSSExtractPlugin` instances of a
configuration (lines 157-160). -/
def cssFilenames (c : Config) : List String :=
  c.plugins.filterMap (fun p =>
    match p with
    | Plugin.miniCSSExtract f _ => some f
    | _ => none)

/-- The `fileName` options of the `ManifestPlugin` instances of a
configuration (lines 153-156). -/
def manifestFileNames (c : Config) : List (List String) :=
  c.plugins.filterMap (fun p =>
    match p with
    | Plugin.manifestPlugin f => some f
    | _ => none)

/-- The `GIT_REVISION` values injected by the `DefinePlugin` instances of
a configuration (lines 161-166). -/
def gitRevisions (c : Config) : List (Option String) :=
  c.plugins.filterMap (fun p =>
    match p with
    | Plugin.definePlugin r _ => some r
    | _ => none)

/-- The `maxChunks` options of the `LimitChunkCountPlugin` instances of a
configuration (line 235). -/
def maxChunksList (c : Config) : List Nat :=
  c.plugins.filterMap (fun p =>
    match p with
    | Plugin.limitChunkCount n => some n
    | _ => none)

/-- How many copies of the cleanup plugin a configuration registers. -/
def countCleanBuild (c : Config) : Nat :=
  (c.plugins.filter (fun p =>
    match p with
    | Plugin.cleanBuild => true
    | _ => false)).length

/-- Total number of cleanup executions across one build invocation of the
exported configurations: the bundler applies every plugin of every
exported configuration, and each registered cleanup plugin's compile-hook
callback fires once per compilation. -/
def cleanupExecutions (e : Env) : Nat :=
  ((moduleExports e).map countCleanBuild).sum

/-- The manifest output paths across all exported configurations. -/
def manifestPaths (e : Env) : List (List String) :=
  ((moduleExports e).map manifestFileNames).flatten

/-- The emitted script filename pattern of the exported browser
configuration (the first export). -/
def browserScript (e : Env) : Option String :=
  (moduleExports e).head?.map (fun c => c.output.filename)

/-- The emitted style filename patterns of the exported browser
configuration. -/
def browserCss (e : Env) : List String :=
  match (moduleExports e).head? with
  | some c => cssFilenames c
  | none => []

/-- The dev-server proxy target of the exported browser configuration. -/
def proxyTargets (e : Env) : Option String :=
  (moduleExports e).head?.map (fun c => c.devServer.proxy)

/-- Whether the first character list starts with the second. -/
def startsWithChars : List Char → List Char → Bool
  | _, [] => true
  | [], _ :: _ => false
  | a :: as, b :: bs => a == b && startsWithChars as bs

/-- Whether a character list contains the given pattern as a contiguous
sublist. -/
def containsChars (pat : List Char) : List Char → Bool
  | [] => startsWithChars [] pat
  | c :: cs => startsWithChars (c :: cs) pat || containsChars pat cs

/-- Whether a filename pattern contains the content-hash placeholder. -/
def containsHash (s : String) : Bool := containsChars "[contenthash]".data s.data

/-- A concrete Development environment: `NODE_ENV=development`, `PORT`
unset, git unavailable. -/
def devEnv : Env := ⟨some "development", none, Except.error ()⟩

/-- A concrete Production environment: `NODE_ENV` unset, `PORT` unset,
git unavailable. -/
def prodEnv : Env := ⟨none, none, Except.error ()⟩

/-- A concrete Development environment with `PORT=8080`. -/
def portEnv : Env := ⟨some "development", some "8080", Except.error ()⟩

/-- Observable events of one compiler run. -/
inductive BuildEvent where
  | cleanup (path : List String)
  | emit
deriving DecidableEq, Repr

/-- Modelled from the spec: the external bundler engine fires the
`compile` hook — where the cleanup callback is tapped (line 212) — before
compilation begins and hence before any output file is emitted; each
registered copy of the cleanup plugin fires once there, on that
compiler's own output directory. -/
def compilerEvents (c : Config) : List BuildEvent :=
  List.replicate (countCleanBuild c) (BuildEvent.cleanup c.output.path) ++ [BuildEvent.emit]

/-- C1: in Production, running the cleanup action on an output directory
containing exactly `manifest.json`, `old.js`, `old.css` deletes the two
entries that are not `manifest.json` and leaves exactly `manifest.json`. -/
theorem C1_cleanup_leaves_manifest :
    cleanBuild (some ["manifest.json", "old.js", "old.css"]) =
      Except.ok (some ["manifest.json"], ["old.js", "old.css"]) := rfl

/-- C10: when the output directory does not exist, the cleanup action
performs no deletions and completes without error. -/
theorem C10_missing_dir_no_deletions_no_error :
    cleanBuild none = Except.ok (none, []) := rfl

/-- C2: a server (node-target) configuration is exported if and only if
the mode is Production: one exported configuration in Development, two in
Production, exactly one of which targets node, and the first export is
always the browser (web-target) configuration. -/
theorem C2_server_config_iff_production (e : Env) :
    ((moduleExports e).filter isServerCfg).length = (if isDev e then 0 else 1) ∧
    (moduleExports e).length = (if isDev e then 1 else 2) ∧
    (moduleExports e).head?.map (fun c => c.target) = some "web" := by
  cases h : isDev e <;>
    simp [moduleExports, h, isServerCfg, nodeCfg, baseConfig, List.filter] <;> rfl

/-- C4: when the external version-control command fails, the resolved
revision identifier is `none`, resolution still completes (exports are
produced, with `GIT_REVISION` injected as `none`); on success the
identifier is the command's stdout trimmed of surrounding whitespace. -/
theorem C4_commit_hash_best_effort (ne p : Option String) (out : String) :
    commitHash (Except.error ()) = none ∧
    commitHash (Except.ok out) = some out.trim ∧
    moduleExports ⟨ne, p, Except.error ()⟩ ≠ [] ∧
    (moduleExports ⟨ne, p, Except.error ()⟩).head?.map gitRevisions = some [none] := by
  refine ⟨rfl, rfl, ?_, ?_⟩ <;>
    cases h : isDev (⟨ne, p, Except.error ()⟩ : Env) <;>
      simp [moduleExports, h, nodeCfg, baseConfig, gitRevisions, commitHash]

/-- C5 as stated is false: in Production, the cleanup plugin pushed onto
`baseConfig.plugins` (line 210) is also carried into `nodeCfg.plugins` by
`baseConfig.plugins.slice(1)` (line 234), so one build invocation of the
exported pair registers the cleanup callback twice — it does not run
exactly once.  Concrete input: `NODE_ENV` unset, `PORT` unset, git
unavailable. -/
theorem C5_counterexample :
    ¬ cleanupExecutions ⟨none, none, Except.error ()⟩ = 1 := by decide

/-- C5 amended: in Production the cleanup callback is registered on both
exported configurations — it runs twice per build invocation, once per
compiler, each time before that compiler emits any output file and on
that compiler's own output directory; it never runs in Development. -/
theorem C5_amended_cleanup_runs (e : Env) :
    cleanupExecutions e = (if isDev e then 0 else 2) ∧
    (moduleExports e).map compilerEvents =
      (if isDev e then [[BuildEvent.emit]]
       else [[BuildEvent.cleanup ["dist"], BuildEvent.emit],
             [BuildEvent.cleanup ["http", "dist"], BuildEvent.emit]]) := by
  cases h : isDev e <;>
    simp [cleanupExecutions, moduleExports, h, nodeCfg, baseConfig,
      compilerEvents, countCleanBuild, List.filter, List.replicate]

/-- C3: under Development the emitted script and style filename patterns
are the human-readable `[name]` patterns containing no content-hash
placeholder and are identical across two resolutions with Development
inputs; under Production they are the `[contenthash]` patterns. -/
theorem C3_filename_patterns (e e' p : Env)
    (h : isDev e = true) (h' : isDev e' = true) (hp : isDev p = false) :
    browserScript e = some "[name].js" ∧ browserCss e = ["[name].css"] ∧
    (browserScript e).map containsHash = some false ∧
    (browserCss e).map containsHash = [false] ∧
    browserScript p = some "[contenthash].js" ∧ browserCss p = ["[contenthash].css"] ∧
    (browserScript p).map containsHash = some true ∧
    (browserCss p).map containsHash = [true] ∧
    browserScript e = browserScript e' ∧ browserCss e = browserCss e' := by
  simp [browserScript, browserCss, moduleExports, h, h', hp, baseConfig,
    cssFilenames, containsHash]
  decide

/-- Witness for C3 at a concrete Development environment (twice) and a
concrete Production environment. -/
theorem C3_filename_patterns_witness :
    isDev devEnv = true ∧ isDev prodEnv = false ∧
    (browserScript devEnv = some "[name].js" ∧ browserCss devEnv = ["[name].css"] ∧
     (browserScript devEnv).map containsHash = some false ∧
     (browserCss devEnv).map containsHash = [false] ∧
     browserScript prodEnv = some "[contenthash].js" ∧
     browserCss prodEnv = ["[contenthash].css"] ∧
     (browserScript prodEnv).map containsHash = some true ∧
     (browserCss prodEnv).map containsHash = [true] ∧
     browserScript devEnv = browserScript devEnv ∧
     browserCss devEnv = browserCss devEnv) :=
  ⟨rfl, rfl, C3_filename_patterns devEnv devEnv prodEnv rfl rfl rfl⟩

/-- C6: in Production, the exports are the browser configuration followed
by exactly one server configuration; the server configuration's entry is
the root UI component `src/components/App.jsx`, its chunk count is capped
at 1, its runtime dependencies are declared external, its minimize flag
is false, and its output directory differs from the browser bundle's. -/
theorem C6_server_descriptor (e : Env) (h : isDev e = false) :
    ∃ b c, moduleExports e = [b, c] ∧ isServerCfg b = false ∧ isServerCfg c = true ∧
      c.entry = ["src", "components", "App.jsx"] ∧
      maxChunksList c = [1] ∧
      c.externals = true ∧
      c.optimization.minimize = false ∧
      ¬ c.output.path = b.output.path := by
  refine ⟨{ baseConfig e with plugins := (baseConfig e).plugins ++ [Plugin.cleanBuild] },
    nodeCfg e, ?_, rfl, rfl, rfl, rfl, rfl, rfl, ?_⟩
  · simp [moduleExports, h]
  · show ¬ (["http", "dist"] : List String) = ["dist"]
    decide

/-- Witness for C6 at a concrete Production environment. -/
theorem C6_server_descriptor_witness :
    isDev prodEnv = false ∧
    (∃ b c, moduleExports prodEnv = [b, c] ∧ isServerCfg b = false ∧ isServerCfg c = true ∧
      c.entry = ["src", "components", "App.jsx"] ∧
      maxChunksList c = [1] ∧
      c.externals = true ∧
      c.optimization.minimize = false ∧
      ¬ c.output.path = b.output.path) :=
  ⟨rfl, C6_server_descriptor prodEnv rfl⟩

/-- C7: the mode string `development` selects Development behavior; every
other `NODE_ENV` value, including an absent one, selects Production
behavior — mode string `production`, minimize enabled, content-hashed
filenames. -/
theorem C7_mode_selection (e d : Env)
    (h : ¬ e.nodeEnv = some "development") (hd : d.nodeEnv = some "development") :
    isDev e = false ∧
    (moduleExports e).head?.map (fun c => (c.mode, c.optimization.minimize, c.output.filename)) =
      some ("production", true, "[contenthash].js") ∧
    isDev d = true ∧
    (moduleExports d).head?.map (fun c => c.mode) = some "development" := by
  have he : isDev e = false := beq_eq_false_iff_ne.mpr h
  have hdd : isDev d = true := beq_iff_eq.mpr hd
  refine ⟨he, ?_, hdd, ?_⟩ <;> simp [moduleExports, he, hdd, baseConfig]

/-- Witness for C7 at a concrete Production environment (`NODE_ENV`
unset) and a concrete Development environment. -/
theorem C7_mode_selection_witness :
    ¬ prodEnv.nodeEnv = some "development" ∧ devEnv.nodeEnv = some "development" ∧
    (isDev prodEnv = false ∧
     (moduleExports prodEnv).head?.map
        (fun c => (c.mode, c.optimization.minimize, c.output.filename)) =
       some ("production", true, "[contenthash].js") ∧
     isDev devEnv = true ∧
     (moduleExports devEnv).head?.map (fun c => c.mode) = some "development") :=
  ⟨by decide, rfl, C7_mode_selection prodEnv devEnv (by decide) rfl⟩

/-- C8 as stated is false: with `PORT` set (to the empty string), the
proxy target is `http://localhost:6969`, not `http://localhost:`
followed by the value of `PORT`, because `process.env.PORT || 6969`
treats every falsy value — the empty string included — as unset. -/
theorem C8_counterexample :
    ¬ proxyTargets ⟨some "development", some "", Except.error ()⟩ =
        some ("http://localhost:" ++ "") := by decide

/-- C8 amended: the dev-server proxy target is `http://localhost:<PORT>`
where `<PORT>` is the `PORT` environment variable when it is set and
non-empty, and the literal default `6969` when `PORT` is unset or set to
the empty string. -/
theorem C8_amended_proxy_target (e : Env) (s : String) (hs : ¬ s = "") :
    (e.port = none → proxyTargets e = some "http://localhost:6969") ∧
    (e.port = some "" → proxyTargets e = some "http://localhost:6969") ∧
    (e.port = some s → proxyTargets e = some ("http://localhost:" ++ s)) := by
  have hb : (s == "") = false := beq_eq_false_iff_ne.mpr hs
  refine ⟨?_, ?_, ?_⟩ <;> intro hp <;>
    cases h : isDev e <;>
      simp [proxyTargets, moduleExports, h, baseConfig, jsOr, hp, hb]

/-- Witness for C8 amended at a Development environment with
`PORT=8080`. -/
theorem C8_amended_proxy_target_witness :
    ¬ "8080" = "" ∧
    ((portEnv.port = none → proxyTargets portEnv = some "http://localhost:6969") ∧
     (portEnv.port = some "" → proxyTargets portEnv = some "http://localhost:6969") ∧
     (portEnv.port = some "8080" → proxyTargets portEnv = some ("http://localhost:" ++ "8080"))) :=
  ⟨by decide, C8_amended_proxy_target portEnv "8080" (by decide)⟩

/-- C9: in every mode the exported configurations carry exactly one
manifest plugin, writing to the fixed path `http/dist/manifest.json`
(that is, `dist/manifest.json` under the `http` static-file root), and a
cleanup pass over a directory listing containing `manifest.json` keeps
`manifest.json` in the remaining listing and never deletes it. -/
theorem C9_manifest_fixed_path_preserved (e : Env) (entries : List String)
    (h : "manifest.json" ∈ entries) :
    manifestPaths e = [["http", "dist", "manifest.json"]] ∧
    ∃ remaining deleted,
      cleanBuild (some entries) = Except.ok (some remaining, deleted) ∧
      "manifest.json" ∈ remaining ∧ ¬ "manifest.json" ∈ deleted := by
  constructor
  · cases hm : isDev e <;>
      simp [manifestPaths, moduleExports, hm, nodeCfg, baseConfig, manifestFileNames]
  · refine ⟨entries.filter (fun f => f == "manifest.json"),
      entries.filter (fun f => f != "manifest.json"), rfl, ?_, ?_⟩
    · simp [List.mem_filter, h]
    · simp [List.mem_filter]

/-- Witness for C9 at a concrete Production environment and the listing
`[manifest.json, old.js]`. -/
theorem C9_manifest_witness :
    "manifest.json" ∈ ["manifest.json", "old.js"] ∧
    (manifestPaths prodEnv = [["http", "dist", "manifest.json"]] ∧
     ∃ remaining deleted,
       cleanBuild (some ["manifest.json", "old.js"]) = Except.ok (some remaining, deleted) ∧
       "manifest.json" ∈ remaining ∧ ¬ "manifest.json" ∈ deleted) :=
  ⟨by decide, C9_manifest_fixed_path_preserved prodEnv ["manifest.json", "old.js"] (by decide)⟩

end PreactHybrid
